import Mathlib

/-!
Verification development for the dsa-queue-simulator traffic-junction
repository.  The definitions below are a shallow embedding of the queueing
and mode-decision logic of the C++ sources: `TrafficManager.cpp`,
`IntersectionController.cpp`, `TrafficLight.cpp`, `Lane.cpp`,
`Queue.h` / `Queue.cpp` and `FileHandler.cpp`.  Machine integers are
modelled by `Nat` / `Int`, `float` timers by `ℚ` (the control logic only
compares and adds timers, so exact arithmetic is faithful), per-lane FIFO
queues by Lean lists (head = front of the queue), and fallible operations
by `Option` / `Except`.
-/

namespace TrafficSim

/-- Vehicle identities: the control logic never inspects a vehicle beyond
its identity, so a vehicle in a lane queue is just a number. -/
abbrev VehId := Nat

/-- The twelve lane queues, indexed by the `LaneId` enumeration order of
`Constants.h` (`AL1_INCOMING = 0`, `AL2_PRIORITY = 1`, `AL3_FREELANE = 2`,
`BL1_INCOMING = 3`, ..., `DL3_FREELANE = 11`).  Each queue is the FIFO list
of queued vehicles, head first. -/
abbrev Lanes := Nat → List VehId

/-- `Direction` enum from `Constants.h`. -/
inductive Direction where
  | STRAIGHT
  | LEFT
  | RIGHT
deriving DecidableEq, Repr

/-- `TrafficManager::isFreeLane` (and the identical
`IntersectionController::isFreeLane`): the four slot-3 lanes
`AL3_FREELANE`, `BL3_FREELANE`, `CL3_FREELANE`, `DL3_FREELANE`. -/
def isFreeLane (l : Nat) : Bool :=
  l == 2 || l == 5 || l == 8 || l == 11

/-- Index of the single lane constructed with `isPriorityLane = true`
(`LaneId::AL2_PRIORITY`), the lane `getPriorityLane` finds. -/
def priorityLaneIdx : Nat := 1

/-- The while-loop pattern `while (lane.size() > t) lane.removeVehicle();`
of `processPriorityLane`: repeatedly remove the queue head while the queue
holds more than `t` vehicles. -/
def drainAbove (t : Nat) : List VehId → List VehId
  | [] => []
  | x :: xs => if t < (x :: xs).length then drainAbove t xs else x :: xs

theorem drainAbove_eq_drop (t : Nat) (xs : List VehId) :
    drainAbove t xs = xs.drop (xs.length - t) := by
  induction xs with
  | nil => simp [drainAbove]
  | cons x xs ih =>
    simp only [drainAbove, List.length_cons]
    by_cases h : t < xs.length + 1
    · have hlen : xs.length + 1 - t = (xs.length - t) + 1 := by omega
      simp [h, hlen, ih]
    · have hlen : xs.length + 1 - t = 0 := by omega
      simp [h, hlen]

theorem drainAbove_length (t : Nat) (xs : List VehId) :
    (drainAbove t xs).length = min xs.length t := by
  rw [drainAbove_eq_drop, List.length_drop]
  omega

namespace TrafficManager

/-- Constants from `TrafficManager.h`. -/
def PRIORITY_THRESHOLD : Nat := 10
def PRIORITY_RELEASE_THRESHOLD : Nat := 5
def MIN_STATE_TIME : ℚ := 5
def MAX_STATE_TIME : ℚ := 30
def VEHICLE_PROCESS_TIME : ℚ := 2

/-- The state of `TrafficManager` that the lane-queue / mode-decision logic
reads and writes.  The fields `activeVehicles` (render positions), the
per-signal `trafficLights` map, `lastUpdateTime` and the statistics fields
`totalVehiclesProcessed` / `averageWaitTime` are never read by the queue or
mode logic and are not part of this projection. -/
structure TMState where
  inPriorityMode : Bool
  stateTimer : ℚ
  processingTimer : ℚ
  lanes : Lanes

/-- `TrafficManager::checkPriorityConditions`: the priority lane holds
strictly more than `PRIORITY_THRESHOLD` vehicles. -/
def checkPriorityConditions (s : TMState) : Bool :=
  decide (PRIORITY_THRESHOLD < (s.lanes priorityLaneIdx).length)

/-- The first half of `TrafficManager::handleStateTransition`: natural
entry (priority-lane size > 10, dwell ≥ `MIN_STATE_TIME`) and natural exit
(size ≤ `PRIORITY_RELEASE_THRESHOLD`, dwell ≥ `MIN_STATE_TIME`).
`synchronizeTrafficLights` only rewrites the per-signal light map, which
is outside this projection. -/
def naturalTransition (s : TMState) : TMState :=
  if checkPriorityConditions s = true ∧ s.inPriorityMode = false then
    if MIN_STATE_TIME ≤ s.stateTimer then
      { s with inPriorityMode := true, stateTimer := 0 }
    else s
  else if checkPriorityConditions s = false ∧ s.inPriorityMode = true then
    if (s.lanes priorityLaneIdx).length ≤ PRIORITY_RELEASE_THRESHOLD ∧
        MIN_STATE_TIME ≤ s.stateTimer then
      { s with inPriorityMode := false, stateTimer := 0 }
    else s
  else s

/-- The trailing "force state change if stuck too long" statement of
`TrafficManager::handleStateTransition`. -/
def forcedFlip (s : TMState) : TMState :=
  if MAX_STATE_TIME ≤ s.stateTimer then
    { s with inPriorityMode := !s.inPriorityMode, stateTimer := 0 }
  else s

/-- `TrafficManager::handleStateTransition`: the natural transition
followed by the forced flip. -/
def handleStateTransition (s : TMState) : TMState :=
  forcedFlip (naturalTransition s)

/-- `TrafficManager::determineOptimalLane`: recompute the lane to enqueue
into from the vehicle's direction; the source lane only contributes its
road group (`laneId / 3`). -/
def determineOptimalLane (L : Lanes) (direction : Direction) (sourceLane : Nat) : Nat :=
  let roadGroup := sourceLane / 3
  match direction with
  | .LEFT => roadGroup * 3 + 2
  | .RIGHT => roadGroup * 3
  | .STRAIGHT =>
      if (L (roadGroup * 3)).length ≤ (L (roadGroup * 3 + 1)).length then
        roadGroup * 3
      else roadGroup * 3 + 1

/-- `TrafficManager::isValidSpawnLane`. -/
def isValidSpawnLane (laneId : Nat) (direction : Direction) : Bool :=
  match direction with
  | .LEFT => laneId % 3 == 2
  | .RIGHT => laneId % 3 == 0
  | .STRAIGHT => laneId % 3 == 0 || laneId % 3 == 1

/-- `TrafficManager::addVehicleToLane`: append at the tail of the matching
lane queue. -/
def addVehicleToLane (laneId : Nat) (vid : VehId) (L : Lanes) : Lanes :=
  fun l => if l = laneId then L l ++ [vid] else L l

/-- One request read from the vehicle file: (source lane, direction,
vehicle id). -/
abbrev NewVehicle := Nat × Direction × VehId

/-- Body of the loop of `TrafficManager::processNewVehicles` for one new
vehicle (the `addNewVehicleToState` call only initialises render state). -/
def processNewVehicle (L : Lanes) (nv : NewVehicle) : Lanes :=
  let optimalLane := determineOptimalLane L nv.2.1 nv.1
  if isValidSpawnLane optimalLane nv.2.1 then
    addVehicleToLane optimalLane nv.2.2 L
  else L

/-- `TrafficManager::processNewVehicles` over the batch returned by
`fileHandler.readNewVehicles()`. -/
def processNewVehicles (news : List NewVehicle) (L : Lanes) : Lanes :=
  news.foldl processNewVehicle L

/-- `TrafficManager::processPriorityLane`: drain the priority lane while it
holds more than `PRIORITY_RELEASE_THRESHOLD` vehicles (head removals). -/
def processPriorityLane (L : Lanes) : Lanes :=
  fun l =>
    if l = priorityLaneIdx then
      drainAbove PRIORITY_RELEASE_THRESHOLD (L priorityLaneIdx)
    else L l

/-- `TrafficManager::processNormalLanes`: from every non-priority,
non-free lane remove up to `vehicleCount` vehicles from the head. -/
def processNormalLanes (vehicleCount : Nat) (L : Lanes) : Lanes :=
  if vehicleCount = 0 then L
  else fun l =>
    if l ≠ priorityLaneIdx ∧ isFreeLane l = false then (L l).drop vehicleCount
    else L l

/-- `TrafficManager::processFreeLanes`: drain every free lane completely. -/
def processFreeLanes (L : Lanes) : Lanes :=
  fun l => if isFreeLane l then [] else L l

/-- The list of normal (non-priority, non-free) lane indices that
`calculateVehiclesToProcess` and `processNormalLanes` iterate over. -/
def normalLaneIdxs : List Nat :=
  (List.range 12).filter (fun l => (!(l == priorityLaneIdx)) && !(isFreeLane l))

/-- `TrafficManager::calculateVehiclesToProcess`:
`ceil(totalVehicles / normalLaneCount)` over the normal lanes. -/
def calculateVehiclesToProcess (L : Lanes) : Nat :=
  let total : Nat := (normalLaneIdxs.map (fun l => (L l).length)).sum
  let n : Nat := normalLaneIdxs.length
  if 0 < n then Int.toNat ⌈(total : ℚ) / (n : ℚ)⌉ else 0

/-- `TrafficManager::checkWaitTimes`: for each non-empty, non-free lane,
if the lane's front vehicle has waited past `MAX_WAIT_TIME` (a fact about
the unmodelled `activeVehicles` wait clocks, abstracted as the oracle
`needsProc`) or the lane holds at least 8 vehicles, remove one vehicle. -/
def checkWaitTimes (needsProc : Nat → Bool) (L : Lanes) : Lanes :=
  fun l =>
    if 0 < (L l).length ∧ isFreeLane l = false ∧
        (needsProc l = true ∨ 8 ≤ (L l).length) then
      (L l).drop 1
    else L l

/-- `TrafficManager::update`.  Substeps `updateVehiclePositions`,
`updateTrafficLights`, `updateStatistics` and `cleanupRemovedVehicles`
read and write only the render/statistics state (`activeVehicles`,
`trafficLights`, `averageWaitTime`) and never the lane queues, the mode
flag or the timers, so they are identities on this projection. -/
def update (news : List NewVehicle) (needsProc : Nat → Bool) (dt : ℚ)
    (s : TMState) : TMState :=
  let s := { s with stateTimer := s.stateTimer + dt,
                    processingTimer := s.processingTimer + dt }
  let s := { s with lanes := processNewVehicles news s.lanes }
  let s := handleStateTransition s
  let s :=
    if VEHICLE_PROCESS_TIME ≤ s.processingTimer then
      let L :=
        if s.inPriorityMode then processPriorityLane s.lanes
        else processNormalLanes (calculateVehiclesToProcess s.lanes) s.lanes
      { s with lanes := processFreeLanes L, processingTimer := 0 }
    else s
  { s with lanes := checkWaitTimes needsProc s.lanes }

end TrafficManager

namespace SimConstants

/-- Constants from `Constants.h` used by `IntersectionController`. -/
def PRIORITY_THRESHOLD : Nat := 10
def NORMAL_THRESHOLD : Nat := 5
def VEHICLE_PROCESS_TIME : ℚ := 3

end SimConstants

namespace IntersectionController

/-- Constants from `IntersectionController.h`. -/
def PRIORITY_THRESHOLD : Nat := 10
def PRIORITY_RELEASE_THRESHOLD : Nat := 5
def MIN_STATE_TIME : ℚ := 5
def MAX_STATE_TIME : ℚ := 30

/-- The state of `IntersectionController` read and written by its queueing
and mode logic.  The statistics counters `vehiclesProcessedInState` /
`totalVehiclesProcessed` and the rebuilt lane priority queue `laneQueue`
are never read back by the control flow and are not part of this
projection. -/
structure ICState where
  isPriorityMode : Bool
  stateTimer : ℚ
  elapsedTime : ℚ
  processingTimer : ℚ
  lanes : Lanes

/-- `IntersectionController::resetStateTimers` (the statistics counter it
also clears is outside this projection). -/
def resetStateTimers (s : ICState) : ICState :=
  { s with stateTimer := 0, processingTimer := 0 }

/-- `IntersectionController::shouldSwitchToNormalMode`: in priority mode,
priority-lane size ≤ `NORMAL_THRESHOLD` and dwell ≥ `MIN_STATE_TIME`. -/
def shouldSwitchToNormalMode (s : ICState) : Bool :=
  if s.isPriorityMode = false then false
  else
    decide ((s.lanes priorityLaneIdx).length ≤ SimConstants.NORMAL_THRESHOLD) &&
    decide (MIN_STATE_TIME ≤ s.stateTimer)

/-- `IntersectionController::shouldSwitchToPriorityMode`: in normal mode,
priority-lane size > `PRIORITY_THRESHOLD` and dwell ≥ `MIN_STATE_TIME`. -/
def shouldSwitchToPriorityMode (s : ICState) : Bool :=
  if s.isPriorityMode = true then false
  else
    decide (SimConstants.PRIORITY_THRESHOLD < (s.lanes priorityLaneIdx).length) &&
    decide (MIN_STATE_TIME ≤ s.stateTimer)

/-- The natural-transition half of
`IntersectionController::handleStateTransition`. -/
def naturalTransition (s : ICState) : ICState :=
  if s.isPriorityMode = true ∧ shouldSwitchToNormalMode s = true then
    resetStateTimers { s with isPriorityMode := false }
  else if s.isPriorityMode = false ∧ shouldSwitchToPriorityMode s = true then
    resetStateTimers { s with isPriorityMode := true }
  else s

/-- The trailing "force state change if stuck too long" statement of
`IntersectionController::handleStateTransition`. -/
def forcedFlip (s : ICState) : ICState :=
  if MAX_STATE_TIME ≤ s.stateTimer then
    resetStateTimers { s with isPriorityMode := !s.isPriorityMode }
  else s

/-- `IntersectionController::handleStateTransition`. -/
def handleStateTransition (s : ICState) : ICState :=
  forcedFlip (naturalTransition s)

/-- `IntersectionController::calculateAverageWaitingVehicles`:
average queue size over the lanes that are neither free nor the priority
lane. -/
def calculateAverageWaitingVehicles (L : Lanes) : ℚ :=
  let total : Nat := (TrafficManager.normalLaneIdxs.map (fun l => (L l).length)).sum
  let n : Nat := TrafficManager.normalLaneIdxs.length
  if 0 < n then (total : ℚ) / (n : ℚ) else 0

/-- `IntersectionController::calculateVehiclesToProcess`:
`ceil` of the average number of waiting vehicles. -/
def calculateVehiclesToProcess (L : Lanes) : Nat :=
  Int.toNat ⌈calculateAverageWaitingVehicles L⌉

/-- `IntersectionController::calculateProcessingTime`: `|V| * t` with
`t = SimConstants::VEHICLE_PROCESS_TIME`; in priority mode `|V|` is the
priority lane's size, otherwise the normal-lane average. -/
def calculateProcessingTime (s : ICState) : ℚ :=
  if s.isPriorityMode then
    ((s.lanes priorityLaneIdx).length : ℚ) * SimConstants.VEHICLE_PROCESS_TIME
  else
    calculateAverageWaitingVehicles s.lanes * SimConstants.VEHICLE_PROCESS_TIME

/-- `IntersectionController::processPriorityLane`: drain the priority lane
while its size exceeds `PRIORITY_RELEASE_THRESHOLD`. -/
def processPriorityLane (L : Lanes) : Lanes :=
  fun l =>
    if l = priorityLaneIdx then
      drainAbove PRIORITY_RELEASE_THRESHOLD (L priorityLaneIdx)
    else L l

/-- `IntersectionController::processNormalLanes`: from every non-free,
non-priority lane remove up to `calculateVehiclesToProcess` vehicles. -/
def processNormalLanes (L : Lanes) : Lanes :=
  let vehiclesToProcess := calculateVehiclesToProcess L
  fun l =>
    if isFreeLane l = false ∧ l ≠ priorityLaneIdx then
      (L l).drop vehiclesToProcess
    else L l

/-- `IntersectionController::processFreeLanes`. -/
def processFreeLanes (L : Lanes) : Lanes :=
  fun l => if isFreeLane l then [] else L l

/-- `IntersectionController::checkWaitTimes`: any non-free lane holding at
least 8 vehicles loses one vehicle. -/
def checkWaitTimes (L : Lanes) : Lanes :=
  fun l =>
    if 0 < (L l).length ∧ isFreeLane l = false ∧ 8 ≤ (L l).length then
      (L l).drop 1
    else L l

/-- `IntersectionController::update`.  `updateLaneQueue` only rebuilds the
`laneQueue` priority queue (outside this projection) and leaves the lane
contents untouched. -/
def update (dt : ℚ) (s : ICState) : ICState :=
  let s := { s with stateTimer := s.stateTimer + dt,
                    elapsedTime := s.elapsedTime + dt,
                    processingTimer := s.processingTimer + dt }
  let s := handleStateTransition s
  let s :=
    if calculateProcessingTime s ≤ s.processingTimer then
      let L :=
        if s.isPriorityMode then processPriorityLane s.lanes
        else processNormalLanes s.lanes
      { s with lanes := L, processingTimer := 0 }
    else s
  let s := { s with lanes := processFreeLanes s.lanes }
  { s with lanes := checkWaitTimes s.lanes }

end IntersectionController

namespace TrafficLight

/-- `TrafficLight::State` from `TrafficLight.h`. -/
inductive TLState where
  | ALL_RED
  | A_GREEN
  | B_GREEN
  | C_GREEN
  | D_GREEN
deriving DecidableEq, Repr

/-- What `TrafficLight::update` reads from one `Lane*`: its road letter
(`getLaneId`), its lane number (`getLaneNumber`) and its vehicle count
(`getVehicleCount`). -/
structure LaneInfo where
  id : Char
  num : Nat
  count : Nat
deriving DecidableEq, Repr

/-- `Constants::PRIORITY_THRESHOLD_HIGH` (value 10 throughout the
repository and the spec). -/
def PRIORITY_THRESHOLD_HIGH : Nat := 10

/-- `Constants::PRIORITY_THRESHOLD_LOW` (value 5). -/
def PRIORITY_THRESHOLD_LOW : Nat := 5

/-- `TrafficLight::allRedDuration` (2000 ms). -/
def allRedDuration : Nat := 2000

/-- The 6000 ms green duration used while in priority mode. -/
def priorityGreenDuration : Nat := 6000

/-- `TrafficLight::calculateAverageVehicleCount`: average vehicle count
over the lane-number-2 lanes, excluding A2 while in priority mode,
returned as `max 1 average`. -/
def calculateAverageVehicleCount (isPriorityMode : Bool) (lanes : List LaneInfo) : ℚ :=
  let sel := lanes.filter (fun li => li.num == 2 && !(isPriorityMode && li.id == 'A'))
  let totalVehicleCount : Nat := (sel.map (fun li => li.count)).sum
  let normalLaneCount : Nat := sel.length
  let average : ℚ :=
    if 0 < normalLaneCount then (totalVehicleCount : ℚ) / (normalLaneCount : ℚ) else 0
  max 1 average

/-- The raw average queue size over the same selection of normal lanes,
before the `max 1` floor — the `avgWaiting` quantity of the spec's
throughput formula. -/
def rawAverage (isPriorityMode : Bool) (lanes : List LaneInfo) : ℚ :=
  let sel := lanes.filter (fun li => li.num == 2 && !(isPriorityMode && li.id == 'A'))
  let totalVehicleCount : Nat := (sel.map (fun li => li.count)).sum
  let normalLaneCount : Nat := sel.length
  if 0 < normalLaneCount then (totalVehicleCount : ℚ) / (normalLaneCount : ℚ) else 0

/-- The green-state duration computed by `TrafficLight::update` in normal
mode: `stateDuration = int(avg * 2000)` then clamped into
`[3000, 15000]` by the two `if` statements. -/
def normalGreenDuration (isPriorityMode : Bool) (lanes : List LaneInfo) : ℤ :=
  let stateDuration : ℤ := ⌊calculateAverageVehicleCount isPriorityMode lanes * 2000⌋
  if stateDuration < 3000 then 3000
  else if 15000 < stateDuration then 15000
  else stateDuration

/-- Modelled from the spec: `phaseDuration_ms = clamp(avgWaiting * 2000,
3000, 15000)` (§4.2 throughput budget formula). -/
def specGreenPhaseDuration (avgWaiting : ℚ) : ℚ :=
  min 15000 (max 3000 (avgWaiting * 2000))

/-- The fields of `TrafficLight` touched by `update`. -/
structure TLLight where
  currentState : TLState
  nextState : TLState
  lastStateChangeTime : Nat
  isPriorityMode : Bool
  shouldResumeNormalMode : Bool
  forceAGreen : Bool
  priorityModeStartTime : Nat
deriving DecidableEq, Repr

/-- `TrafficLight::TrafficLight()`: initial state, parametrised by the
construction-time clock value. -/
def init (t0 : Nat) : TLLight :=
  { currentState := .ALL_RED, nextState := .A_GREEN, lastStateChangeTime := t0,
    isPriorityMode := false, shouldResumeNormalMode := false,
    forceAGreen := false, priorityModeStartTime := 0 }

/-- The A2 lookup at the top of `TrafficLight::update`: the vehicle count
of the first lane with road letter A and lane number 2, if any. -/
def a2Count (lanes : List LaneInfo) : Option Nat :=
  (lanes.find? (fun li => li.id == 'A' && li.num == 2)).map (fun li => li.count)

/-- The priority-detection block of `TrafficLight::update` (lines guarded
by `if (al2Lane)`): immediate entry when the A2 count exceeds
`PRIORITY_THRESHOLD_HIGH` (forcing the state toward `A_GREEN`, through
`ALL_RED` when a different green is showing), exit when the count drops
below `PRIORITY_THRESHOLD_LOW`, plus the periodic refresh of the
logging timestamp. -/
def priorityCheck (now : Nat) (lanes : List LaneInfo) (s : TLLight) : TLLight :=
  match a2Count lanes with
  | none => s
  | some vehicleCount =>
    let s1 :=
      if PRIORITY_THRESHOLD_HIGH < vehicleCount then
        if s.isPriorityMode = false then
          let s2 := { s with isPriorityMode := true, forceAGreen := true,
                             priorityModeStartTime := now }
          if s2.currentState ≠ .A_GREEN then
            if s2.currentState ≠ .ALL_RED then
              { s2 with currentState := .ALL_RED, nextState := .A_GREEN,
                        lastStateChangeTime := now }
            else
              { s2 with currentState := .A_GREEN, nextState := .ALL_RED,
                        lastStateChangeTime := now }
          else s2
        else s
      else if s.isPriorityMode = true ∧ vehicleCount < PRIORITY_THRESHOLD_LOW then
        { s with isPriorityMode := false, forceAGreen := false }
      else s
    if s1.isPriorityMode = true ∧ 5000 < now - s1.priorityModeStartTime then
      { s1 with priorityModeStartTime := now }
    else s1

/-- The `isPriorityMode && forceAGreen` block of `TrafficLight::update`:
cycle between a 6000 ms `A_GREEN` and a 2000 ms `ALL_RED`. -/
def priorityCycle (now : Nat) (s : TLLight) : TLLight :=
  let elapsedTime := now - s.lastStateChangeTime
  if s.currentState ≠ .A_GREEN then
    if allRedDuration ≤ elapsedTime then
      { s with currentState := .A_GREEN, nextState := .ALL_RED,
               lastStateChangeTime := now }
    else s
  else
    if priorityGreenDuration ≤ elapsedTime then
      { s with currentState := .ALL_RED, nextState := .A_GREEN,
               lastStateChangeTime := now }
    else s

/-- The `switch (nextState)` rotation of `TrafficLight::update` (the
`default` branch yields `A_GREEN`). -/
def rotateNext : TLState → TLState
  | .A_GREEN => .B_GREEN
  | .B_GREEN => .C_GREEN
  | .C_GREEN => .D_GREEN
  | .D_GREEN => .A_GREEN
  | .ALL_RED => .A_GREEN

/-- The normal-mode tail of `TrafficLight::update`: once the state
duration has elapsed, advance `currentState := nextState` and recompute
`nextState` (rotation after `ALL_RED`, otherwise back to `ALL_RED`). -/
def normalCycle (now : Nat) (lanes : List LaneInfo) (s : TLLight) : TLLight :=
  let elapsedTime := now - s.lastStateChangeTime
  let stateDuration : ℤ :=
    if s.currentState = .ALL_RED then (allRedDuration : ℤ)
    else normalGreenDuration s.isPriorityMode lanes
  if stateDuration ≤ (elapsedTime : ℤ) then
    let cur := s.nextState
    let nxt := if cur = .ALL_RED then rotateNext s.nextState else .ALL_RED
    { s with currentState := cur, nextState := nxt, lastStateChangeTime := now }
  else s

/-- `TrafficLight::update(lanes)`, with the `SDL_GetTicks()` clock passed
in as `now` (milliseconds; the uint32 clock is monotone over a run, so
`Nat` subtraction models `currentTime - lastStateChangeTime`). -/
def update (now : Nat) (lanes : List LaneInfo) (s : TLLight) : TLLight :=
  let s1 := priorityCheck now lanes s
  if s1.isPriorityMode = true ∧ s1.forceAGreen = true then priorityCycle now s1
  else normalCycle now lanes s1

/-- `TrafficLight::isGreen`. -/
def isGreen (s : TLLight) (lane : Char) : Bool :=
  match s.currentState with
  | .A_GREEN => lane == 'A'
  | .B_GREEN => lane == 'B'
  | .C_GREEN => lane == 'C'
  | .D_GREEN => lane == 'D'
  | .ALL_RED => false

/-- A state is showing a green phase (any state other than `ALL_RED`). -/
def isGreenState (st : TLState) : Bool :=
  match st with
  | .ALL_RED => false
  | _ => true

/-- States reachable from construction by any sequence of `update` calls
with arbitrary clock values and lane contents. -/
inductive Reaches : TLLight → Prop where
  | init (t0 : Nat) : Reaches (init t0)
  | step (now : Nat) (lanes : List LaneInfo) {s : TLLight} :
      Reaches s → Reaches (update now lanes s)

/-- Invariant of the reachable light states: both the current and the
pending state are always `ALL_RED` or `A_GREEN`. -/
def TLInv (s : TLLight) : Prop :=
  (s.currentState = .ALL_RED ∨ s.currentState = .A_GREEN) ∧
  (s.nextState = .ALL_RED ∨ s.nextState = .A_GREEN)

end TrafficLight

namespace Queue

/-- `Queue<T>::enqueue` (both the linked-list and the vector-backed
variant): append at the rear. -/
def enqueue (q : List α) (a : α) : List α := q ++ [a]

/-- `Queue<T>::dequeue`: remove and return the front element; throws
`std::runtime_error("Queue is empty")` on an empty queue. -/
def dequeueE (q : List α) : Except String (α × List α) :=
  match q with
  | [] => .error "Queue is empty"
  | h :: t => .ok (h, t)

/-- `Queue<T>::peek`: return the front element; throws on empty. -/
def peekE (q : List α) : Except String α :=
  match q with
  | [] => .error "Queue is empty"
  | h :: _ => .ok h

end Queue

/-- The `Lane` of `Lane.cpp` (road letter / lane number variant): identity,
priority score and the FIFO vehicle queue. -/
structure Lane where
  laneId : Char
  laneNumber : Nat
  isPriority : Bool
  priority : Nat
  queue : List VehId
deriving DecidableEq, Repr

/-- `Lane::Lane(laneId, laneNumber)`: `isPriority` is set exactly for A2,
priority score starts at 0, queue starts empty. -/
def Lane.mkLane (laneId : Char) (laneNumber : Nat) : Lane :=
  { laneId := laneId, laneNumber := laneNumber,
    isPriority := laneId == 'A' && laneNumber == 2,
    priority := 0, queue := [] }

/-- `Lane::enqueue`: append the vehicle, then raise the priority score to
100 when the priority lane's count passes `PRIORITY_THRESHOLD_HIGH`
(the null-vehicle guard is vacuous here since every `VehId` is a value). -/
def Lane.enqueue (vehicle : VehId) (l : Lane) : Lane :=
  let q := Queue.enqueue l.queue vehicle
  let currentCount := q.length
  if l.isPriority = true ∧ TrafficLight.PRIORITY_THRESHOLD_HIGH < currentCount ∧
      l.priority = 0 then
    { l with queue := q, priority := 100 }
  else { l with queue := q }

/-- `Lane::dequeue`: guarded head removal — on an empty queue return the
null sentinel without touching the underlying (throwing) queue; otherwise
dequeue the head and possibly reset the priority score. -/
def Lane.dequeue (l : Lane) : Except String (Option VehId × Lane) :=
  if l.queue.isEmpty then .ok (none, l)
  else do
    let (vehicle, q) ← Queue.dequeueE l.queue
    let currentCount := q.length
    if l.isPriority = true ∧ currentCount < TrafficLight.PRIORITY_THRESHOLD_LOW ∧
        0 < l.priority then
      .ok (some vehicle, { l with queue := q, priority := 0 })
    else
      .ok (some vehicle, { l with queue := q })

/-- `Lane::peek`: guarded front access, null sentinel on empty. -/
def Lane.peek (l : Lane) : Except String (Option VehId) :=
  if l.queue.isEmpty then .ok none
  else do
    let vehicle ← Queue.peekE l.queue
    .ok (some vehicle)

/-- An operation of an enqueue/dequeue interleaving on one lane. -/
inductive QueueOp where
  | enq (v : VehId)
  | deq
deriving DecidableEq, Repr

/-- A lane together with the history of the interleaving run on it: the
vehicles enqueued so far (in order) and the vehicles returned by dequeue
so far (in order). -/
structure RunState where
  lane : Lane
  enqueued : List VehId
  dequeued : List VehId

/-- Apply one operation of an interleaving. -/
def runStep (st : RunState) (op : QueueOp) : RunState :=
  match op with
  | .enq v => { st with lane := st.lane.enqueue v, enqueued := st.enqueued ++ [v] }
  | .deq =>
    match st.lane.dequeue with
    | .ok (some v, l1) => { st with lane := l1, dequeued := st.dequeued ++ [v] }
    | .ok (none, l1) => { st with lane := l1 }
    | .error _ => st

/-- Run an arbitrary interleaving of enqueues and dequeues on a freshly
constructed lane. -/
def runOps (laneId : Char) (laneNumber : Nat) (ops : List QueueOp) : RunState :=
  ops.foldl runStep
    { lane := Lane.mkLane laneId laneNumber, enqueued := [], dequeued := [] }

namespace FileHandler

/-- `DebugLogger::LogLevel`. -/
inductive LogLevel where
  | DEBUG
  | INFO
  | WARNING
  | ERROR
deriving DecidableEq, Repr

/-- `Destination` enum from `Vehicle.h`. -/
inductive Destination where
  | STRAIGHT
  | LEFT
  | RIGHT
deriving DecidableEq, Repr

/-- The `Vehicle` fields set by `FileHandler::parseVehicleLine`. -/
structure Vehicle where
  vehicleId : String
  laneChar : Char
  laneNumber : Nat
  isEmergency : Bool
  destination : Destination
deriving DecidableEq, Repr

/-- `std::string::find` for a pattern: index of the first occurrence of
`pat` as a contiguous substring of the haystack, `none` for `npos`. -/
def subFind (pat : List Char) : List Char → Option Nat
  | [] => if pat.isPrefixOf ([] : List Char) then some 0 else none
  | c :: t =>
    if pat.isPrefixOf (c :: t) then some 0
    else (subFind pat t).map (fun i => i + 1)

/-- `hay.find(pat) != std::string::npos`. -/
def containsSub (hay pat : List Char) : Bool := (subFind pat hay).isSome

/-- The lane-number extraction block of `FileHandler::parseVehicleLine`:
look for `"_L"` in the vehicle-id part; a digit 1–3 right after it gives
the lane number, anything else defaults to 2. -/
def laneNumberOf (vehicleId : List Char) : Nat :=
  match subFind ['_', 'L'] vehicleId with
  | some lanePos =>
    if lanePos + 2 < vehicleId.length then
      let laneNumChar := vehicleId.getD (lanePos + 2) ' '
      if '1' ≤ laneNumChar ∧ laneNumChar ≤ '3' then
        laneNumChar.toNat - Char.toNat '0'
      else 2
    else 2
  | none => 2

/-- The direction-determination block of `FileHandler::parseVehicleLine`:
lane 3 always turns LEFT; lane 2 turns LEFT only with an explicit
`"_LEFT"` tag, otherwise STRAIGHT. -/
def destinationOf (laneNumber : Nat) (vehicleId : List Char) : Destination :=
  if laneNumber = 3 then Destination.LEFT
  else if laneNumber = 2 then
    if containsSub vehicleId ['_', 'L', 'E', 'F', 'T'] then Destination.LEFT
    else if containsSub vehicleId ['_', 'S', 'T', 'R', 'A', 'I', 'G', 'H', 'T'] then
      Destination.STRAIGHT
    else Destination.STRAIGHT
  else Destination.STRAIGHT

/-- The emergency-flag block of `FileHandler::parseVehicleLine`. -/
def isEmergencyOf (vehicleId : List Char) : Bool :=
  containsSub vehicleId ['_', 'E'] || containsSub vehicleId ['E', '_']

/-- `FileHandler::parseVehicleLine` (the `src/managers/FileHandler.cpp`
variant): returns the parsed vehicle, or `none` for a rejected line,
together with the `DebugLogger::log` messages it emits (creation log
message abbreviated). -/
def parseVehicleLine (line : String) : Option Vehicle × List (LogLevel × String) :=
  let cs := line.toList
  match subFind [':'] cs with
  | none => (none, [(.ERROR, "Error parsing line (missing colon): " ++ line)])
  | some pos =>
    let vehicleId := cs.take pos
    if cs.length ≤ pos + 1 then
      (none, [(.ERROR, "Error parsing line (missing lane ID): " ++ line)])
    else
      let laneId := cs.getD (pos + 1) ' '
      let laneNumber := laneNumberOf vehicleId
      if laneNumber = 1 then
        (none, [(.WARNING, "Ignoring vehicle in Lane 1: " ++ line)])
      else
        if laneId ≠ 'A' ∧ laneId ≠ 'B' ∧ laneId ≠ 'C' ∧ laneId ≠ 'D' then
          (none, [(.ERROR, "Invalid lane ID in line: " ++ line)])
        else
          (some { vehicleId := String.mk vehicleId, laneChar := laneId,
                  laneNumber := laneNumber,
                  isEmergency := isEmergencyOf vehicleId,
                  destination := destinationOf laneNumber vehicleId },
           [(.INFO, "Created vehicle " ++ String.mk vehicleId)])

end FileHandler

/-! Concrete instances used by counterexamples and witnesses. -/

/-- A junction in priority mode with exactly 5 vehicles in the priority
lane and the minimum dwell satisfied. -/
def tmExitAtFive : TrafficManager.TMState :=
  { inPriorityMode := true, stateTimer := 5, processingTimer := 0,
    lanes := fun l => if l = 1 then [0, 1, 2, 3, 4] else [] }

/-- A junction in priority mode with 8 vehicles in the priority lane and
`stateTimer` at `MAX_STATE_TIME`. -/
def tmForcedExit : TrafficManager.TMState :=
  { inPriorityMode := true, stateTimer := 30, processingTimer := 0,
    lanes := fun l => if l = 1 then [0, 1, 2, 3, 4, 5, 6, 7] else [] }

/-- A junction in priority mode with 6 vehicles in the priority lane and
`stateTimer` well inside the dwell window. -/
def tmStaySix : TrafficManager.TMState :=
  { inPriorityMode := true, stateTimer := 10, processingTimer := 0,
    lanes := fun l => if l = 1 then [0, 1, 2, 3, 4, 5] else [] }

/-- Four normal (lane-number-2) lanes each holding `c` vehicles. -/
def constNormalLanes (c : Nat) : List TrafficLight.LaneInfo :=
  [⟨'A', 2, c⟩, ⟨'B', 2, c⟩, ⟨'C', 2, c⟩, ⟨'D', 2, c⟩]

/-- Normal mode, fresh timers, one vehicle in free lane `AL3` (index 2). -/
def tmFreeTick : TrafficManager.TMState :=
  { inPriorityMode := false, stateTimer := 0, processingTimer := 0,
    lanes := fun l => if l = 2 then [7] else [] }

/-- An `IntersectionController` state with one vehicle in free lane `AL3`. -/
def icFreeTick : IntersectionController.ICState :=
  { isPriorityMode := true, stateTimer := 0, elapsedTime := 0,
    processingTimer := 0, lanes := fun l => if l = 2 then [9] else [] }

/-- Normal mode, `stateTimer` at 1 s (inside the dwell window), priority
lane over threshold. -/
def tmDwellBlocked : TrafficManager.TMState :=
  { inPriorityMode := false, stateTimer := 1, processingTimer := 0,
    lanes := fun l => if l = 1 then [0, 1, 2, 3, 4, 5, 6, 7, 8, 9, 10] else [] }

/-- Priority mode, `stateTimer` at `MAX_STATE_TIME`, priority lane still
over threshold. -/
def tmForcedFlip : TrafficManager.TMState :=
  { inPriorityMode := true, stateTimer := 30, processingTimer := 0,
    lanes := fun l => if l = 1 then [0, 1, 2, 3, 4, 5, 6, 7, 8, 9, 10] else [] }

/-- A single lane list putting 11 vehicles on A2. -/
def tlLanes11 : List TrafficLight.LaneInfo := [⟨'A', 2, 11⟩]

/-- The light state right after the priority-mode entry forced by
`tlLanes11` from the initial state. -/
def tlPriorityEntered : TrafficLight.TLLight :=
  TrafficLight.update 0 tlLanes11 (TrafficLight.init 0)

/-- Eight vehicles queued on the priority lane, one on `AL1`. -/
def demoLanes8 : Lanes :=
  fun l => if l = 1 then [0, 1, 2, 3, 4, 5, 6, 7] else if l = 0 then [9] else []

/-! Helper lemmas. -/

namespace TrafficManager

theorem naturalTransition_processingTimer (s : TMState) :
    (naturalTransition s).processingTimer = s.processingTimer := by
  unfold naturalTransition
  split_ifs <;> rfl

theorem forcedFlip_processingTimer (s : TMState) :
    (forcedFlip s).processingTimer = s.processingTimer := by
  unfold forcedFlip
  split_ifs <;> rfl

theorem handleStateTransition_processingTimer (s : TMState) :
    (handleStateTransition s).processingTimer = s.processingTimer := by
  unfold handleStateTransition
  rw [forcedFlip_processingTimer, naturalTransition_processingTimer]

theorem naturalTransition_lanes (s : TMState) :
    (naturalTransition s).lanes = s.lanes := by
  unfold naturalTransition
  split_ifs <;> rfl

theorem forcedFlip_lanes (s : TMState) :
    (forcedFlip s).lanes = s.lanes := by
  unfold forcedFlip
  split_ifs <;> rfl

theorem handleStateTransition_lanes (s : TMState) :
    (handleStateTransition s).lanes = s.lanes := by
  unfold handleStateTransition
  rw [forcedFlip_lanes, naturalTransition_lanes]

theorem processFreeLanes_freeLane (L : Lanes) (l : Nat) (h : isFreeLane l = true) :
    processFreeLanes L l = [] := by
  simp [processFreeLanes, h]

theorem checkWaitTimes_freeLane (needsProc : Nat → Bool) (L : Lanes) (l : Nat)
    (h : isFreeLane l = true) :
    checkWaitTimes needsProc L l = L l := by
  simp [checkWaitTimes, h]

end TrafficManager

namespace IntersectionController

theorem ic_processFreeLanes_freeLane (L : Lanes) (l : Nat) (h : isFreeLane l = true) :
    processFreeLanes L l = [] := by
  simp [processFreeLanes, h]

theorem ic_checkWaitTimes_freeLane (L : Lanes) (l : Nat) (h : isFreeLane l = true) :
    checkWaitTimes L l = L l := by
  simp [checkWaitTimes, h]

end IntersectionController

/-! Claims. -/

/-- C1 counterexample: the code leaves priority mode at a tick where the
priority lane's size is exactly 5 (the natural exit fires at size ≤ 5 with
the dwell guard satisfied), and it also leaves priority mode at a tick
where the size is 8 once `stateTimer` reaches `MAX_STATE_TIME`, so the
claimed "no exit at any tick with size ≥ 5" is false. -/
theorem claim1_counterexample :
    (tmExitAtFive.inPriorityMode = true ∧
      (tmExitAtFive.lanes priorityLaneIdx).length = 5 ∧
      (TrafficManager.handleStateTransition tmExitAtFive).inPriorityMode = false) ∧
    (tmForcedExit.inPriorityMode = true ∧
      (tmForcedExit.lanes priorityLaneIdx).length = 8 ∧
      (TrafficManager.handleStateTransition tmForcedExit).inPriorityMode = false) := by
  refine ⟨⟨rfl, by decide, by decide⟩, ⟨rfl, by decide, by decide⟩⟩

/-- C1 (amended): once priority mode has been entered, the junction does
not leave priority mode at any tick at which the priority lane's size is
at least 6 and `stateTimer` is still below `MAX_STATE_TIME`; in particular
no exit occurs while the size lies in [6, 10].  (The code's natural exit
fires at size ≤ 5, not size < 5, and the `MAX_STATE_TIME` safety valve
flips the mode regardless of the size.) -/
theorem claim1_hysteresis_amended (s : TrafficManager.TMState)
    (hmode : s.inPriorityMode = true)
    (hsize : 6 ≤ (s.lanes priorityLaneIdx).length)
    (htimer : s.stateTimer < TrafficManager.MAX_STATE_TIME) :
    (TrafficManager.handleStateTransition s).inPriorityMode = true := by
  unfold TrafficManager.handleStateTransition TrafficManager.naturalTransition
    TrafficManager.forcedFlip
  unfold TrafficManager.MAX_STATE_TIME at htimer
  split_ifs <;>
    simp_all [TrafficManager.PRIORITY_RELEASE_THRESHOLD,
      TrafficManager.MAX_STATE_TIME] <;>
    first
    | omega
    | linarith

/-- C1 witness: a priority-mode state with 6 queued priority vehicles and
`stateTimer = 10` stays in priority mode. -/
theorem claim1_witness :
    (TrafficManager.handleStateTransition tmStaySix).inPriorityMode = true :=
  claim1_hysteresis_amended tmStaySix rfl (by decide) (by decide)

/-- C4: no transition between NORMAL and PRIORITY mode occurs while
`stateTimer < MIN_STATE_TIME`; once `stateTimer` reaches `MAX_STATE_TIME`
the mode is flipped regardless of queue thresholds; and `stateTimer` is
reset to 0 on every transition. -/
theorem claim4_dwell_time_guard (s : TrafficManager.TMState) :
    (s.stateTimer < TrafficManager.MIN_STATE_TIME →
      (TrafficManager.handleStateTransition s).inPriorityMode = s.inPriorityMode) ∧
    (TrafficManager.MAX_STATE_TIME ≤ s.stateTimer →
      (TrafficManager.handleStateTransition s).inPriorityMode = !s.inPriorityMode ∧
      (TrafficManager.handleStateTransition s).stateTimer = 0) ∧
    ((TrafficManager.handleStateTransition s).inPriorityMode ≠ s.inPriorityMode →
      (TrafficManager.handleStateTransition s).stateTimer = 0) := by
  unfold TrafficManager.handleStateTransition TrafficManager.naturalTransition
    TrafficManager.forcedFlip TrafficManager.MIN_STATE_TIME
    TrafficManager.MAX_STATE_TIME
  refine ⟨?_, ?_, ?_⟩
  · intro hlt
    split_ifs <;> simp_all <;> linarith
  · intro hge
    split_ifs <;> simp_all <;> linarith
  · intro hne
    split_ifs at hne ⊢ <;> simp_all

/-- C4 witness: with `stateTimer = 1` and the priority lane over
threshold no entry happens; with `stateTimer = 30` the mode flips and the
timer resets. -/
theorem claim4_witness :
    (TrafficManager.handleStateTransition tmDwellBlocked).inPriorityMode = false ∧
    ((TrafficManager.handleStateTransition tmForcedFlip).inPriorityMode = false ∧
      (TrafficManager.handleStateTransition tmForcedFlip).stateTimer = 0) :=
  ⟨(claim4_dwell_time_guard tmDwellBlocked).1 (by decide),
   (claim4_dwell_time_guard tmForcedFlip).2.1 (by decide)⟩

/-- C6: while in PRIORITY mode the processing step drains the priority
lane from the head (FIFO) down to `PRIORITY_RELEASE_THRESHOLD`: the lane
retains exactly the last `min(size, 5)` vehicles (the queue suffix after
dropping `size - 5` heads), every other lane is untouched, and
`IntersectionController::processPriorityLane` computes the same lane
contents as `TrafficManager::processPriorityLane`. -/
theorem claim6_priority_drain (L : Lanes) :
    ((TrafficManager.processPriorityLane L) priorityLaneIdx =
      (L priorityLaneIdx).drop
        ((L priorityLaneIdx).length - TrafficManager.PRIORITY_RELEASE_THRESHOLD)) ∧
    ((TrafficManager.processPriorityLane L) priorityLaneIdx).length =
      min (L priorityLaneIdx).length 5 ∧
    (∀ l, l ≠ priorityLaneIdx → (TrafficManager.processPriorityLane L) l = L l) ∧
    IntersectionController.processPriorityLane L = TrafficManager.processPriorityLane L := by
  refine ⟨?_, ?_, ?_, rfl⟩
  · simp [TrafficManager.processPriorityLane, drainAbove_eq_drop]
  · simp [TrafficManager.processPriorityLane, drainAbove_length,
      TrafficManager.PRIORITY_RELEASE_THRESHOLD]
  · intro l hl
    simp [TrafficManager.processPriorityLane, hl]

/-- C6 witness: with 8 queued priority vehicles the drain keeps the last
5, and the non-priority lane `AL1` is untouched. -/
theorem claim6_witness :
    (TrafficManager.processPriorityLane demoLanes8) 0 = demoLanes8 0 :=
  (claim6_priority_drain demoLanes8).2.2.1 0 (by decide)

/-- C3 counterexample: a `TrafficManager` tick with `deltaTime = 1` from
fresh timers does not reach the processing block
(`processingTimer = 1 < VEHICLE_PROCESS_TIME`), so the free lane `AL3`
still holds its vehicle at the end of the tick — free lanes are NOT
drained on every `TrafficManager` tick. -/
theorem claim3_counterexample :
    isFreeLane 2 = true ∧
    (TrafficManager.update [] (fun _ => false) 1 tmFreeTick).lanes 2 = [7] := by
  refine ⟨by decide, ?_⟩
  dsimp only [TrafficManager.update]
  rw [TrafficManager.checkWaitTimes_freeLane _ _ _ (by decide)]
  split
  · next hpos =>
    exfalso
    rw [TrafficManager.handleStateTransition_processingTimer] at hpos
    norm_num [tmFreeTick, TrafficManager.VEHICLE_PROCESS_TIME] at hpos
  · rw [TrafficManager.handleStateTransition_lanes]
    rfl

/-- C3 (amended): `IntersectionController::update` drains every free lane
on every tick, in both modes — each free lane's queue is empty at the end
of every tick.  In `TrafficManager::update`, free lanes are drained (in
both modes) exactly on the ticks whose accumulated `processingTimer`
reaches `VEHICLE_PROCESS_TIME` (2 s); between processing ticks a free
lane keeps its vehicles. -/
theorem claim3_free_lane_amended :
    (∀ (dt : ℚ) (s : IntersectionController.ICState) (l : Nat),
        isFreeLane l = true →
        (IntersectionController.update dt s).lanes l = []) ∧
    (∀ (news : List TrafficManager.NewVehicle) (needsProc : Nat → Bool) (dt : ℚ)
        (s : TrafficManager.TMState) (l : Nat),
        isFreeLane l = true →
        TrafficManager.VEHICLE_PROCESS_TIME ≤ s.processingTimer + dt →
        (TrafficManager.update news needsProc dt s).lanes l = []) := by
  constructor
  · intro dt s l hfree
    dsimp only [IntersectionController.update]
    rw [IntersectionController.ic_checkWaitTimes_freeLane _ _ hfree,
      IntersectionController.ic_processFreeLanes_freeLane _ _ hfree]
  · intro news needsProc dt s l hfree hproc
    dsimp only [TrafficManager.update]
    rw [TrafficManager.checkWaitTimes_freeLane _ _ _ hfree]
    split
    · exact TrafficManager.processFreeLanes_freeLane _ _ hfree
    · next hneg =>
      exact absurd (by rw [TrafficManager.handleStateTransition_processingTimer]; exact hproc) hneg

/-- C3 witness: the `IntersectionController` invariant applied at a
priority-mode tick with a queued free-lane vehicle, and the
`TrafficManager` processing-tick case applied at `deltaTime = 2`. -/
theorem claim3_witness :
    (IntersectionController.update 1 icFreeTick).lanes 2 = [] ∧
    (TrafficManager.update [] (fun _ => false) 2 tmFreeTick).lanes 2 = [] :=
  ⟨claim3_free_lane_amended.1 1 icFreeTick 2 (by decide),
   claim3_free_lane_amended.2 [] (fun _ => false) 2 tmFreeTick 2 (by decide)
     (by norm_num [tmFreeTick, TrafficManager.VEHICLE_PROCESS_TIME])⟩

namespace TrafficLight

theorem calcAvg_eq_max_rawAverage (m : Bool) (ls : List LaneInfo) :
    calculateAverageVehicleCount m ls = max 1 (rawAverage m ls) := rfl

theorem rawAverage_nonneg (m : Bool) (ls : List LaneInfo) : 0 ≤ rawAverage m ls := by
  unfold rawAverage
  dsimp only
  split_ifs
  · exact div_nonneg (Nat.cast_nonneg _) (Nat.cast_nonneg _)
  · exact le_refl 0

theorem floor_min_int (z : ℤ) (q : ℚ) : ⌊min (z : ℚ) q⌋ = min z ⌊q⌋ := by
  rcases le_total (z : ℚ) q with h | h
  · rw [min_eq_left h, Int.floor_intCast]
    have h2 : z ≤ ⌊q⌋ := Int.le_floor.2 h
    omega
  · rw [min_eq_right h]
    have h2 : ⌊q⌋ ≤ z := by simpa using Int.floor_le_floor h
    omega

theorem floor_max_int (z : ℤ) (q : ℚ) : ⌊max (z : ℚ) q⌋ = max z ⌊q⌋ := by
  rcases le_total (z : ℚ) q with h | h
  · rw [max_eq_right h]
    have h2 : z ≤ ⌊q⌋ := Int.le_floor.2 h
    omega
  · rw [max_eq_left h, Int.floor_intCast]
    have h2 : ⌊q⌋ ≤ z := by simpa using Int.floor_le_floor h
    omega

theorem clamp_ite_eq_minmax (d : ℤ) :
    (if d < 3000 then (3000 : ℤ) else if 15000 < d then 15000 else d) =
      min 15000 (max 3000 d) := by
  split_ifs <;> omega

theorem normalGreenDuration_eq_spec (m : Bool) (ls : List LaneInfo) :
    normalGreenDuration m ls = ⌊specGreenPhaseDuration (rawAverage m ls)⌋ := by
  have ha : 0 ≤ rawAverage m ls := rawAverage_nonneg m ls
  set a := rawAverage m ls with hadef
  unfold normalGreenDuration specGreenPhaseDuration
  rw [calcAvg_eq_max_rawAverage, ← hadef, clamp_ite_eq_minmax]
  have h15 : ((15000 : ℤ) : ℚ) = 15000 := by norm_num
  have h3 : ((3000 : ℤ) : ℚ) = 3000 := by norm_num
  rw [← h15, ← h3, floor_min_int, floor_max_int]
  rcases le_total a 1 with h1 | h1
  · rw [max_eq_left h1]
    have hb : ⌊a * 2000⌋ ≤ 2000 := by
      have hle : a * 2000 ≤ 2000 := by nlinarith
      have h2 : ⌊a * 2000⌋ ≤ ⌊(2000 : ℚ)⌋ := Int.floor_le_floor hle
      simpa using h2
    have h2000 : ⌊(1 : ℚ) * 2000⌋ = 2000 := by norm_num
    rw [h2000]
    omega
  · rw [max_eq_right h1]

theorem normalGreenDuration_pos (m : Bool) (ls : List LaneInfo) :
    0 < normalGreenDuration m ls := by
  unfold normalGreenDuration
  dsimp only
  split_ifs <;> omega

end TrafficLight

/-- C2: in normal mode the green-phase duration equals
`clamp(avgWaiting * 2000 ms, 3000, 15000)` where `avgWaiting` is the
average queue size over the normal lanes (durations are integral
milliseconds, so the product is floored); the implementation's
`max(1, average)` floor never changes the clamped result.  In particular
`avgWaiting = 0` yields 3000 ms, `avgWaiting = 4` yields 8000 ms,
`avgWaiting = 100` yields 15000 ms, and the duration is never 0. -/
theorem claim2_green_phase_duration :
    (∀ (mode : Bool) (lanes : List TrafficLight.LaneInfo),
        TrafficLight.normalGreenDuration mode lanes =
          ⌊TrafficLight.specGreenPhaseDuration (TrafficLight.rawAverage mode lanes)⌋) ∧
    (TrafficLight.specGreenPhaseDuration 0 = 3000 ∧
      TrafficLight.specGreenPhaseDuration 4 = 8000 ∧
      TrafficLight.specGreenPhaseDuration 100 = 15000) ∧
    (TrafficLight.normalGreenDuration false (constNormalLanes 0) = 3000 ∧
      TrafficLight.normalGreenDuration false (constNormalLanes 4) = 8000 ∧
      TrafficLight.normalGreenDuration false (constNormalLanes 100) = 15000) ∧
    (∀ (mode : Bool) (lanes : List TrafficLight.LaneInfo),
        0 < TrafficLight.normalGreenDuration mode lanes) := by
  refine ⟨TrafficLight.normalGreenDuration_eq_spec, ⟨?_, ?_, ?_⟩, ⟨?_, ?_, ?_⟩,
    TrafficLight.normalGreenDuration_pos⟩
  · norm_num [TrafficLight.specGreenPhaseDuration]
  · norm_num [TrafficLight.specGreenPhaseDuration]
  · norm_num [TrafficLight.specGreenPhaseDuration]
  · rw [TrafficLight.normalGreenDuration_eq_spec]
    have h : TrafficLight.rawAverage false (constNormalLanes 0) = 0 := by
      norm_num [TrafficLight.rawAverage, constNormalLanes]
    rw [h]
    norm_num [TrafficLight.specGreenPhaseDuration]
  · rw [TrafficLight.normalGreenDuration_eq_spec]
    have h : TrafficLight.rawAverage false (constNormalLanes 4) = 4 := by
      norm_num [TrafficLight.rawAverage, constNormalLanes]
    rw [h]
    norm_num [TrafficLight.specGreenPhaseDuration]
  · rw [TrafficLight.normalGreenDuration_eq_spec]
    have h : TrafficLight.rawAverage false (constNormalLanes 100) = 100 := by
      norm_num [TrafficLight.rawAverage, constNormalLanes]
    rw [h]
    norm_num [TrafficLight.specGreenPhaseDuration]

namespace TrafficLight

theorem priorityCheck_inv (now : Nat) (lanes : List LaneInfo) (s : TLLight)
    (h : TLInv s) : TLInv (priorityCheck now lanes s) := by
  unfold priorityCheck
  rcases ha : a2Count lanes with _ | cnt
  · exact h
  · dsimp only
    split_ifs <;> simp_all [TLInv]

theorem priorityCycle_inv (now : Nat) (s : TLLight)
    (h : TLInv s) : TLInv (priorityCycle now s) := by
  unfold priorityCycle
  dsimp only
  split_ifs <;> simp_all [TLInv]

theorem normalCycle_inv (now : Nat) (lanes : List LaneInfo) (s : TLLight)
    (h : TLInv s) : TLInv (normalCycle now lanes s) := by
  obtain ⟨hc, hn⟩ := h
  unfold normalCycle
  dsimp only
  rcases hn with hn | hn <;> split_ifs <;> simp_all [TLInv, rotateNext]

theorem update_inv (now : Nat) (lanes : List LaneInfo) (s : TLLight)
    (h : TLInv s) : TLInv (update now lanes s) := by
  unfold update
  dsimp only
  split_ifs
  · exact priorityCycle_inv now _ (priorityCheck_inv now lanes s h)
  · exact normalCycle_inv now lanes _ (priorityCheck_inv now lanes s h)

theorem reaches_inv {s : TLLight} (h : Reaches s) : TLInv s := by
  induction h with
  | init t0 => simp [TLInv, init]
  | step now lanes _ ih => exact update_inv now lanes _ ih

end TrafficLight

/-- C5: at every tick at most one of the four roads A, B, C, D shows
green (`isGreen` singles out at most one road letter in every state), and
along every execution of the light-phase state machine a step never moves
directly from one green state to a different green state — any change of
the shown green passes through `ALL_RED`. -/
theorem claim5_light_mutual_exclusion :
    (∀ (s : TrafficLight.TLLight) (c d : Char),
        TrafficLight.isGreen s c = true → TrafficLight.isGreen s d = true → c = d) ∧
    (∀ (s : TrafficLight.TLLight) (now : Nat) (lanes : List TrafficLight.LaneInfo),
        TrafficLight.Reaches s →
        TrafficLight.isGreenState s.currentState = true →
        TrafficLight.isGreenState (TrafficLight.update now lanes s).currentState = true →
        (TrafficLight.update now lanes s).currentState = s.currentState) := by
  constructor
  · intro s c d hc hd
    unfold TrafficLight.isGreen at hc hd
    cases hcur : s.currentState <;> rw [hcur] at hc hd <;>
      simp only [beq_iff_eq] at hc hd <;> simp_all
  · intro s now lanes hr hg hg2
    have h1 := TrafficLight.reaches_inv hr
    have h2 := TrafficLight.reaches_inv (TrafficLight.Reaches.step now lanes hr)
    rcases h1.1 with hcur | hcur
    · rw [hcur] at hg
      simp [TrafficLight.isGreenState] at hg
    · rcases h2.1 with hcur2 | hcur2
      · rw [hcur2] at hg2
        simp [TrafficLight.isGreenState] at hg2
      · rw [hcur, hcur2]

/-- C5 witness: after the priority-forced entry from the initial state the
light shows `A_GREEN`; a further tick in priority mode keeps the same
green, and `isGreen` at that state singles out road A. -/
theorem claim5_witness :
    ('A' = 'A') ∧
    (TrafficLight.update 100 tlLanes11 tlPriorityEntered).currentState =
      tlPriorityEntered.currentState :=
  ⟨claim5_light_mutual_exclusion.1 tlPriorityEntered 'A' 'A' (by decide) (by decide),
   claim5_light_mutual_exclusion.2 tlPriorityEntered 100 tlLanes11
     (TrafficLight.Reaches.step 0 tlLanes11 (TrafficLight.Reaches.init 0))
     (by decide) (by decide)⟩

theorem Lane.enqueue_queue (v : VehId) (l : Lane) :
    (Lane.enqueue v l).queue = l.queue ++ [v] := by
  unfold Lane.enqueue Queue.enqueue
  dsimp only
  split_ifs <;> rfl

theorem Lane.dequeue_spec (l : Lane) :
    (l.queue = [] ∧ l.dequeue = .ok (none, l)) ∨
    (∃ v t l1, l.queue = v :: t ∧ l.dequeue = .ok (some v, l1) ∧ l1.queue = t) := by
  rcases hq : l.queue with _ | ⟨v, t⟩
  · exact Or.inl ⟨rfl, by simp [Lane.dequeue, hq]⟩
  · right
    by_cases hc : l.isPriority = true ∧ t.length < TrafficLight.PRIORITY_THRESHOLD_LOW ∧
        0 < l.priority
    · exact ⟨v, t, { l with queue := t, priority := 0 }, rfl,
        by simp [Lane.dequeue, hq, Queue.dequeueE, hc, Bind.bind, Except.bind], rfl⟩
    · exact ⟨v, t, { l with queue := t }, rfl,
        by simp [Lane.dequeue, hq, Queue.dequeueE, hc, Bind.bind, Except.bind], rfl⟩

theorem runStep_inv (st : RunState) (op : QueueOp)
    (h : st.enqueued = st.dequeued ++ st.lane.queue) :
    (runStep st op).enqueued = (runStep st op).dequeued ++ (runStep st op).lane.queue := by
  cases op with
  | enq v => simp [runStep, Lane.enqueue_queue, h]
  | deq =>
    rcases Lane.dequeue_spec st.lane with ⟨hq, hd⟩ | ⟨v, t, l1, hq, hd, hl1⟩
    · simpa [runStep, hd] using h
    · rw [hq] at h
      simp [runStep, hd, h, hl1]

theorem foldl_runStep_inv : ∀ (ops : List QueueOp) (st : RunState),
    st.enqueued = st.dequeued ++ st.lane.queue →
    (ops.foldl runStep st).enqueued =
      (ops.foldl runStep st).dequeued ++ (ops.foldl runStep st).lane.queue
  | [], _, h => h
  | op :: ops, st, h => foldl_runStep_inv ops (runStep st op) (runStep_inv st op h)

/-- C7: for every lane and every interleaving of enqueue and dequeue
operations, the sequence of vehicles returned by dequeue is a prefix of
the sequence of vehicles enqueued, in the same relative order (enqueue
appends at the tail, dequeue removes the head, no reordering). -/
theorem claim7_fifo_order (laneId : Char) (laneNumber : Nat) (ops : List QueueOp) :
    (runOps laneId laneNumber ops).dequeued <+: (runOps laneId laneNumber ops).enqueued :=
  ⟨(runOps laneId laneNumber ops).lane.queue,
    (foldl_runStep_inv ops _ (by simp [Lane.mkLane])).symm⟩

/-- C8: dequeuing (or peeking) a lane with an empty queue returns the
explicit empty sentinel without raising the underlying queue's exception,
and leaves the lane unchanged. -/
theorem claim8_empty_dequeue (l : Lane) (h : l.queue = []) :
    l.dequeue = .ok (none, l) ∧ l.peek = .ok none := by
  constructor <;> simp [Lane.dequeue, Lane.peek, h]

/-- C8 witness: a freshly constructed lane is empty, and both accessors
return the sentinel on it. -/
theorem claim8_witness :
    (Lane.mkLane 'B' 2).dequeue = .ok (none, Lane.mkLane 'B' 2) ∧
    (Lane.mkLane 'B' 2).peek = .ok none :=
  claim8_empty_dequeue (Lane.mkLane 'B' 2) rfl

/-- C10: the lane a new vehicle is enqueued into is recomputed from its
direction (the requested lane contributes only its road group): RIGHT
goes to the road's slot-1 lane, LEFT to its slot-3 lane, STRAIGHT to the
shorter of slot-1/slot-2 with ties to slot-1; the recomputed lane always
passes `isValidSpawnLane`, so the vehicle is enqueued there; and slot-1
lanes do receive directly spawned vehicles (a STRAIGHT request aimed at
`BL2` lands in `BL1` on empty lanes). -/
theorem claim10_lane_rerouting :
    (∀ (L : Lanes) (d : Direction) (src : Nat),
        TrafficManager.isValidSpawnLane (TrafficManager.determineOptimalLane L d src) d =
          true) ∧
    (∀ (L : Lanes) (d : Direction) (src : Nat) (v : VehId),
        TrafficManager.processNewVehicle L (src, d, v) =
          TrafficManager.addVehicleToLane (TrafficManager.determineOptimalLane L d src) v L) ∧
    (∀ (L : Lanes) (src : Nat),
        TrafficManager.determineOptimalLane L .RIGHT src = (src / 3) * 3 ∧
        TrafficManager.determineOptimalLane L .LEFT src = (src / 3) * 3 + 2 ∧
        TrafficManager.determineOptimalLane L .STRAIGHT src =
          (if (L ((src / 3) * 3)).length ≤ (L ((src / 3) * 3 + 1)).length
           then (src / 3) * 3 else (src / 3) * 3 + 1)) ∧
    ((TrafficManager.processNewVehicles [(4, .STRAIGHT, 7)] (fun _ => [])) 3 = [7] ∧
      (TrafficManager.processNewVehicles [(4, .STRAIGHT, 7)] (fun _ => [])) 4 = []) := by
  have hvalid : ∀ (L : Lanes) (d : Direction) (src : Nat),
      TrafficManager.isValidSpawnLane (TrafficManager.determineOptimalLane L d src) d =
        true := by
    intro L d src
    cases d with
    | STRAIGHT =>
      unfold TrafficManager.determineOptimalLane TrafficManager.isValidSpawnLane
      dsimp only
      split_ifs <;> simp only [Bool.or_eq_true, beq_iff_eq] <;> omega
    | LEFT =>
      unfold TrafficManager.determineOptimalLane TrafficManager.isValidSpawnLane
      simp only [beq_iff_eq]
      omega
    | RIGHT =>
      unfold TrafficManager.determineOptimalLane TrafficManager.isValidSpawnLane
      simp only [beq_iff_eq]
      omega
  refine ⟨hvalid, ?_, ?_, by decide, by decide⟩
  · intro L d src v
    unfold TrafficManager.processNewVehicle
    dsimp only
    rw [hvalid]
    simp
  · intro L src
    refine ⟨rfl, rfl, rfl⟩

/-- C9: the file-based parser rejects (returning no vehicle, with a log
message, and without any exception) every line without a colon, every
line naming a road other than A/B/C/D, and every lane-number-1 line: any
accepted vehicle comes from a line with a colon, carries a road letter in
A–D and a lane number other than 1; every rejected line produces a log
entry; and the line "garbage_no_colon" yields no vehicle and an error
log. -/
theorem claim9_ingestion_rejection :
    (∀ (line : String) (v : FileHandler.Vehicle)
        (logs : List (FileHandler.LogLevel × String)),
        FileHandler.parseVehicleLine line = (some v, logs) →
        (FileHandler.subFind [':'] line.toList).isSome = true ∧
        (v.laneChar = 'A' ∨ v.laneChar = 'B' ∨ v.laneChar = 'C' ∨ v.laneChar = 'D') ∧
        v.laneNumber ≠ 1) ∧
    (∀ line : String,
        (FileHandler.parseVehicleLine line).1 = none →
        (FileHandler.parseVehicleLine line).2 ≠ []) ∧
    (FileHandler.parseVehicleLine "garbage_no_colon" =
      (none, [(.ERROR, "Error parsing line (missing colon): garbage_no_colon")])) := by
  refine ⟨?_, ?_, by rfl⟩
  · intro line v logs h
    unfold FileHandler.parseVehicleLine at h
    dsimp only at h
    rcases hfind : FileHandler.subFind [':'] line.toList with _ | pos
    · rw [hfind] at h
      simp at h
    · rw [hfind] at h
      dsimp only at h
      refine ⟨rfl, ?_⟩
      split_ifs at h <;>
        first
        | (rw [Prod.mk.injEq, Option.some.injEq] at h
           obtain ⟨hv, -⟩ := h
           subst hv
           constructor
           · dsimp only
             tauto
           · dsimp only
             simp_all)
        | simp at h
  · intro line _
    unfold FileHandler.parseVehicleLine
    dsimp only
    rcases hfind : FileHandler.subFind [':'] line.toList with _ | pos
    · simp
    · dsimp only
      split_ifs <;> simp

/-- C9 witness: the well-formed line "V1_L2:A" is accepted (with a colon,
road A, lane number 2), and the malformed line "garbage_no_colon" is
rejected with a non-empty log. -/
theorem claim9_witness :
    ((FileHandler.subFind [':'] (String.toList "V1_L2:A")).isSome = true ∧
      ((⟨"V1_L2", 'A', 2, false, .STRAIGHT⟩ : FileHandler.Vehicle).laneChar = 'A' ∨
        (⟨"V1_L2", 'A', 2, false, .STRAIGHT⟩ : FileHandler.Vehicle).laneChar = 'B' ∨
        (⟨"V1_L2", 'A', 2, false, .STRAIGHT⟩ : FileHandler.Vehicle).laneChar = 'C' ∨
        (⟨"V1_L2", 'A', 2, false, .STRAIGHT⟩ : FileHandler.Vehicle).laneChar = 'D') ∧
      (⟨"V1_L2", 'A', 2, false, .STRAIGHT⟩ : FileHandler.Vehicle).laneNumber ≠ 1) ∧
    (FileHandler.parseVehicleLine "garbage_no_colon").2 ≠ [] :=
  ⟨claim9_ingestion_rejection.1 "V1_L2:A" ⟨"V1_L2", 'A', 2, false, .STRAIGHT⟩
      [(.INFO, "Created vehicle V1_L2")] (by rfl),
   claim9_ingestion_rejection.2.1 "garbage_no_colon" (by rfl)⟩

end TrafficSim
